import Mathlib

/-!
Verification development for the lead-qualification engine
(`qualifier_engine.py`).  The definitions below are a shallow embedding of
the engine's pure core: text normalisation, the JSON repair helper, the
config loader, the three classifiers, the scoring/decision functions and
the sequential batch loop.  File-system and network effects are made
explicit: file contents are passed as `Option String`, the language-model
oracle is a function from prompts to optional replies, and each oracle
invocation is recorded in a log (mirroring the source's `CALLS_IN_WINDOW`
call counter).  All caches are association lists with Python-dict
update semantics.  Strings are assumed ASCII (the engine's inputs are
scraped English-language job titles and company names).
-/

namespace Engine

/-! ### Basic character/string helpers (Python `str` operations) -/

/-- The left-brace character (written via its code point). -/
def lbrace : Char := Char.ofNat 123

/-- The right-brace character (written via its code point). -/
def rbrace : Char := Char.ofNat 125

/-- The single-quote character (written via its code point). -/
def squote : Char := Char.ofNat 39

/-- A one-character string holding a single quote. -/
def sq : String := ⟨[squote]⟩

/-- Python `\s` over ASCII: space, tab, newline, carriage return,
vertical tab, form feed. -/
def isSpaceChar (c : Char) : Bool :=
  c == ' ' || c == '\t' || c == '\n' || c == '\r' || c == '\x0b' || c == '\x0c'

/-- Python `\w` over ASCII: letters, digits, underscore. -/
def wordChar (c : Char) : Bool :=
  c.isAlphanum || c == '_'

/-- Does `pat` occur at the head of `s`?  (List-level `startswith`.) -/
def startsWithSeq : List Char → List Char → Bool
  | [], _ => true
  | _ :: _, [] => false
  | a :: as, b :: bs => a == b && startsWithSeq as bs

/-- Does `pat` occur anywhere inside `s`?  (List-level substring test.) -/
def containsSeq (pat : List Char) : List Char → Bool
  | [] => startsWithSeq pat []
  | c :: rest => startsWithSeq pat (c :: rest) || containsSeq pat rest

/-- Python's `needle in haystack` on strings: substring containment. -/
def strIn (needle haystack : String) : Bool :=
  containsSeq needle.data haystack.data

/-- Python `str.lower` (ASCII). -/
def pyLower (s : String) : String :=
  ⟨s.data.map Char.toLower⟩

/-- Strip leading and trailing whitespace from a character list. -/
def stripChars (s : List Char) : List Char :=
  ((s.dropWhile isSpaceChar).reverse.dropWhile isSpaceChar).reverse

/-- Python `str.strip()` (whitespace on both ends). -/
def pyStrip (s : String) : String :=
  ⟨stripChars s.data⟩

/-- Fuel-indexed core of `replaceSeq`; a replacement consumes at least
one character per step, so fuel at least the input length never runs
out (the fuel-exhausted branch returns the rest unchanged and is
unreachable in every use below). -/
def replaceSeqF (pat rep : List Char) : Nat → List Char → List Char
  | 0, s => s
  | _ + 1, [] => []
  | fuel + 1, c :: rest =>
    if !pat.isEmpty && startsWithSeq pat (c :: rest) then
      rep ++ replaceSeqF pat rep fuel (rest.drop (pat.length - 1))
    else
      c :: replaceSeqF pat rep fuel rest

/-- Replace every (non-overlapping, left-to-right) occurrence of `pat`
by `rep`, as Python `str.replace`.  `pat` is nonempty in every use; an
empty `pat` leaves the input unchanged. -/
def replaceSeq (pat rep s : List Char) : List Char :=
  replaceSeqF pat rep s.length s

/-- Python `str.replace` on strings. -/
def pyReplace (s pat rep : String) : String :=
  ⟨replaceSeq pat.data rep.data s.data⟩

/-! ### JSON values and a model of `json.loads`

`Json` models the Python values produced by `json.loads`: `None`, booleans,
numbers, strings, lists and dicts (as field lists; no input in this
development produces duplicate keys).  The parser models Python
`json.loads` on the grammar fragment exercised by the engine: objects,
arrays, double-quoted strings with the common escapes, integer numerals
and the three literals.  Fractional/exponent numerals and `\u` escapes are
not produced by any input considered here and are rejected. -/

inductive Json where
  | null
  | bool (b : Bool)
  | num (n : Int)
  | str (s : String)
  | arr (elems : List Json)
  | obj (fields : List (String × Json))

/-- Skip JSON whitespace. -/
def skipWs (s : List Char) : List Char :=
  s.dropWhile fun c => c == ' ' || c == '\t' || c == '\n' || c == '\r'

/-- Parse the body of a double-quoted JSON string (the opening quote is
already consumed); returns the string and the input after the closing
quote. -/
def parseStr : List Char → Option (String × List Char)
  | [] => none
  | '\\' :: e :: rest =>
    match (match e with
           | '"' => some '"'
           | '\\' => some '\\'
           | '/' => some '/'
           | 'n' => some '\n'
           | 't' => some '\t'
           | 'r' => some '\r'
           | 'b' => some '\x08'
           | 'f' => some '\x0c'
           | _ => none) with
    | some c =>
      match parseStr rest with
      | some (s, rem) => some (⟨c :: s.data⟩, rem)
      | none => none
    | none => none
  | c :: rest =>
    if c == '"' then some ("", rest)
    else
      match parseStr rest with
      | some (s, rem) => some (⟨c :: s.data⟩, rem)
      | none => none

/-- Read a maximal run of digits as a value, most significant first. -/
def takeDigits (acc : Nat) : List Char → Nat × List Char
  | c :: rest =>
    if c.isDigit then takeDigits (acc * 10 + (c.toNat - 48)) rest
    else (acc, c :: rest)
  | [] => (acc, [])

mutual

/-- Parse one JSON value.  `fuel` bounds the recursion depth; callers
supply more fuel than the input length, which is always sufficient
because every recursive call first consumes at least one character. -/
def parseValue : Nat → List Char → Option (Json × List Char)
  | 0, _ => none
  | fuel + 1, s =>
    match skipWs s with
    | [] => none
    | c :: rest =>
      if c == lbrace then
        match skipWs rest with
        | c2 :: rest2 =>
          if c2 == rbrace then some (Json.obj [], rest2)
          else parseMembers fuel (c2 :: rest2)
        | [] => none
      else if c == '[' then
        match skipWs rest with
        | c2 :: rest2 =>
          if c2 == ']' then some (Json.arr [], rest2)
          else parseElems fuel (c2 :: rest2)
        | [] => none
      else if c == '"' then
        match parseStr rest with
        | some (str, rem) => some (Json.str str, rem)
        | none => none
      else if c == 't' then
        if startsWithSeq "rue".data rest then some (Json.bool true, rest.drop 3) else none
      else if c == 'f' then
        if startsWithSeq "alse".data rest then some (Json.bool false, rest.drop 4) else none
      else if c == 'n' then
        if startsWithSeq "ull".data rest then some (Json.null, rest.drop 3) else none
      else if c == '-' then
        match rest with
        | d :: rest2 =>
          if d.isDigit then
            let (n, rem) := takeDigits (d.toNat - 48) rest2
            match rem with
            | e :: _ => if e == '.' || e == 'e' || e == 'E' then none
                        else some (Json.num (-(n : Int)), rem)
            | [] => some (Json.num (-(n : Int)), rem)
          else none
        | [] => none
      else if c.isDigit then
        let (n, rem) := takeDigits (c.toNat - 48) rest
        match rem with
        | e :: _ => if e == '.' || e == 'e' || e == 'E' then none
                    else some (Json.num (n : Int), rem)
        | [] => some (Json.num (n : Int), rem)
      else none

/-- Parse the members of a JSON object, positioned at the first key. -/
def parseMembers : Nat → List Char → Option (Json × List Char)
  | 0, _ => none
  | fuel + 1, s =>
    match skipWs s with
    | c :: rest =>
      if c == '"' then
        match parseStr rest with
        | some (k, rem) =>
          match skipWs rem with
          | ':' :: rem2 =>
            match parseValue fuel rem2 with
            | some (v, rem3) =>
              match skipWs rem3 with
              | ',' :: rem4 =>
                (match parseMembers fuel rem4 with
                 | some (Json.obj fs, rem5) => some (Json.obj ((k, v) :: fs), rem5)
                 | _ => none)
              | c5 :: rem5 =>
                if c5 == rbrace then some (Json.obj [(k, v)], rem5) else none
              | [] => none
            | none => none
          | _ => none
        | none => none
      else none
    | [] => none

/-- Parse the elements of a JSON array, positioned at the first element. -/
def parseElems : Nat → List Char → Option (Json × List Char)
  | 0, _ => none
  | fuel + 1, s =>
    match parseValue fuel s with
    | some (v, rem) =>
      match skipWs rem with
      | ',' :: rem2 =>
        (match parseElems fuel rem2 with
         | some (Json.arr vs, rem3) => some (Json.arr (v :: vs), rem3)
         | _ => none)
      | ']' :: rem2 => some (Json.arr [v], rem2)
      | _ => none
    | none => none

end

/-- Model of Python `json.loads`: parse one value and require that only
whitespace remains. -/
def json_loads (s : String) : Option Json :=
  match parseValue (s.data.length + 1) s.data with
  | some (j, rem) => if skipWs rem = [] then some j else none
  | none => none

/-! ### `repair_json` (qualifier_engine.py lines 182-199) -/

/-- Index of the last occurrence of `c` in `s`, if any. -/
def lastIdxOf (c : Char) (s : List Char) : Option Nat :=
  match s.reverse.findIdx? (· == c) with
  | some j => some (s.length - 1 - j)
  | none => none

/-- The span matched by `re.search` of the pattern "brace, anything,
brace" (greedy): from the leftmost left-brace that has a right-brace
after it, through the last right-brace of the text. -/
def braceSpan (s : List Char) : Option (List Char) :=
  match lastIdxOf rbrace s with
  | none => none
  | some j =>
    match (s.take j).findIdx? (· == lbrace) with
    | none => none
    | some i => some ((s.drop i).take (j - i + 1))

/-- The third repair step: single quotes to double quotes, newlines to
spaces, trailing commas before a closing brace/bracket dropped, then
strip, then parse. -/
def repairSubstitute (t : String) : Option Json :=
  json_loads (pyStrip (pyReplace (pyReplace (pyReplace (pyReplace t sq "\"") "\n" " ") ",\x7d" "\x7d") ", ]" "]"))

/-- Model of `repair_json`: direct parse, then parse of the greedy
brace-delimited substring, then the character-substitution repair on the
whole text.  A `none` / empty input short-circuits to `none`. -/
def repair_json (text : Option String) : Option Json :=
  match text with
  | none => none
  | some t =>
    if t = "" then none
    else
      match json_loads t with
      | some j => some j
      | none =>
        match braceSpan t.data with
        | some sub =>
          match json_loads ⟨sub⟩ with
          | some j => some j
          | none => repairSubstitute t
        | none => repairSubstitute t

/-! ### Normalizers (qualifier_engine.py lines 243-263) -/

/-- The seniority tokens stripped by `normalize_title`, in the pattern's
alternation order. -/
def SENIORITY : List String :=
  ["senior", "sr", "lead", "principal", "ii", "iii", "iv", "jr", "junior",
   "mid", "intern", "internship"]

/-- Does `w` match at the head of `s` as a whole word (the character
after the match, if any, is not a word character)?  Every seniority word
starts and ends with a word character, so the leading word boundary is
checked by the caller via the preceding character. -/
def wordBoundaryMatch (s : List Char) (w : String) : Bool :=
  startsWithSeq w.data s &&
  (match s.drop w.data.length with
   | [] => true
   | c :: _ => !wordChar c)

/-- Try to match one seniority token at the head of `s` under the
regex's word-boundary requirements (`prevIsWord` is whether the
character before this position is a word character); returns the length
of the matched token.  Alternatives are tried in pattern order, as the
regex engine does. -/
def matchSeniority (prevIsWord : Bool) (s : List Char) : Option Nat :=
  if prevIsWord then none
  else (SENIORITY.find? (wordBoundaryMatch s)).map (fun w => w.data.length)

/-- Fuel-indexed core of `removeSeniority`; each step consumes at least
one character, so fuel at least the input length never runs out (the
fuel-exhausted branch returns the rest unchanged and is unreachable in
every use below). -/
def removeSeniorityF : Nat → Bool → List Char → List Char
  | 0, _, s => s
  | _ + 1, _, [] => []
  | fuel + 1, prevIsWord, c :: rest =>
    match matchSeniority prevIsWord (c :: rest) with
    | some n => removeSeniorityF fuel true (rest.drop (n - 1))
    | none => c :: removeSeniorityF fuel (wordChar c) rest

/-- One pass of `re.sub` deleting whole-word seniority tokens, scanning
the original text left to right. -/
def removeSeniority (prevIsWord : Bool) (s : List Char) : List Char :=
  removeSeniorityF s.length prevIsWord s

/-- Keep lowercase letters, digits and spaces; every other character
becomes a space (the `[^a-z0-9 ]` substitution). -/
def stripNonAlnum (s : List Char) : List Char :=
  s.map fun c =>
    if ('a' ≤ c && c ≤ 'z') || ('0' ≤ c && c ≤ '9') || c == ' ' then c else ' '

/-- Collapse every whitespace run to a single space (`\s+` to a space);
`prevWs` records whether the previous character was whitespace. -/
def collapseWs (prevWs : Bool) : List Char → List Char
  | [] => []
  | c :: rest =>
    if isSpaceChar c then
      (if prevWs then [] else [' ']) ++ collapseWs true rest
    else c :: collapseWs false rest

/-- Model of `normalize_title`: lowercase, strip whole-word seniority
tokens, replace non-alphanumerics by spaces, collapse whitespace, strip. -/
def normalize_title (title : String) : String :=
  if title = "" then ""
  else
    ⟨stripChars (collapseWs false (stripNonAlnum
      (removeSeniority false (title.data.map Char.toLower))))⟩

/-- The keyword table of `is_game_role`. -/
def GAME_KEYWORDS : List String :=
  ["game", "unreal", "unity", "gameplay", "designer", "producer", "3d", "2d",
   "artist", "ui", "ux", "vfx", "fx", "animator", "render", "graphics",
   "engine", "engineer", "tools", "rig", "rigging", "technical art",
   "lighting", "animation", "pipeline", "concept", "level", "narrative",
   "technical animator", "technical artist"]

/-- Model of `is_game_role`: the normalized title contains one of the
game keywords as a substring. -/
def is_game_role (title : String) : Bool :=
  let t := normalize_title title
  GAME_KEYWORDS.any fun k => strIn k t

/-! ### Configuration tables (qualifier_engine.py lines 99-162)

The engine loads its rule tables from `config/*.json`, falling back to the
defaults below (which are also what a fresh checkout runs with, since the
repository ships no config directory).  The embedding instantiates every
table at its default.  JSON-sourced mapping values are `Json` values: in
the default service mapping each value is the two-element array
`[detailed_service, service_bucket]`. -/

/-- `DEFAULT_SERVICE_MAPPING`, in insertion order, values as JSON arrays. -/
def SERVICE_MAPPING : List (String × Json) :=
  [("animation", Json.arr [Json.str "Animation", Json.str "Art"]),
   ("animator", Json.arr [Json.str "Animation", Json.str "Art"]),
   ("vfx", Json.arr [Json.str "VFX", Json.str "Art"]),
   ("technical artist", Json.arr [Json.str "Technical Art", Json.str "Art"]),
   ("technical animator", Json.arr [Json.str "Technical Animation", Json.str "Art"]),
   ("engineer", Json.arr [Json.str "Programming", Json.str "Co-Dev"]),
   ("programmer", Json.arr [Json.str "Programming", Json.str "Co-Dev"]),
   ("engine programmer", Json.arr [Json.str "Programming", Json.str "Co-Dev"]),
   ("tools", Json.arr [Json.str "Programming Tools", Json.str "Co-Dev"]),
   ("producer", Json.arr [Json.str "Game Production", Json.str "Full"]),
   ("level designer", Json.arr [Json.str "Game Production", Json.str "Full"]),
   ("design", Json.arr [Json.str "Game Development", Json.str "Full"]),
   ("ui", Json.arr [Json.str "UI/UX", Json.str "Art"]),
   ("ux", Json.arr [Json.str "UI/UX", Json.str "Art"]),
   ("render", Json.arr [Json.str "Rendering", Json.str "Co-Dev"]),
   ("rig", Json.arr [Json.str "Rigging", Json.str "Art"])]

/-- The default service mapping as the JSON document written to disk. -/
def DEFAULT_SERVICE_MAPPING_JSON : Json := Json.obj SERVICE_MAPPING

/-- The keys of the service mapping as iterated by the classifier:
`sorted(SERVICE_MAPPING.keys(), key=lambda x: -len(x))`, i.e. by
decreasing length, ties in insertion order (Python's sort is stable).
This list is proved below to be a length-sorted permutation of the
mapping's keys. -/
def SERVICE_KEYS_SORTED : List String :=
  ["technical animator", "engine programmer", "technical artist",
   "level designer", "programmer", "animation", "animator", "engineer",
   "producer", "design", "render", "tools", "vfx", "rig", "ui", "ux"]

/-- `trusted_game_companies` from the default industry mapping. -/
def TRUSTED_GAME_COMPANIES : List String :=
  ["ubisoft", "epic games", "riot games", "cd projekt red", "bethesda",
   "activision", "blizzard", "respawn", "naughty dog", "take-two",
   "square enix", "nintendo", "playstation", "scopely", "keywords studios",
   "gameloft", "supercell", "behaviour interactive", "dices", "insomniac",
   "rockstar", "ea", "sony", "konami", "remedy"]

/-- `forced_non_gaming` from the default industry mapping. -/
def FORCED_NON_GAMING : List String :=
  ["linkedin", "tcs", "infosys", "deloitte", "bosch", "walmart",
   "cognizant", "accenture", "capgemini", "hcl"]

/-- The gaming-adjacent company-name tokens checked by `detect_industry`. -/
def GAMING_NAME_TOKENS : List String :=
  ["games", "studio", "interactive", "entertainment", "gamedev", "game",
   "play", "mobile"]

/-- `GOOD_REGIONS`: the lowercased keys of the default region mapping
(the default `icp_rules.good_regions`). -/
def GOOD_REGIONS : List String :=
  ["united states", "canada", "france", "uk", "germany", "japan", "china",
   "finland", "sweden", "poland", "australia", "singapore", "india"]

/-- Builds a company-profile JSON object as stored in `TRUSTED_STATS`. -/
def mkInfo (hq employees revenue : String) : Json :=
  Json.obj [("hq_country", Json.str hq), ("employees", Json.str employees),
            ("revenue", Json.str revenue)]

/-- The curated `TRUSTED_STATS` table (the default written on first run). -/
def TRUSTED_STATS : List (String × Json) :=
  [("epic games", mkInfo "United States" ">20000" ">1B"),
   ("ubisoft", mkInfo "France" ">20000" ">1B"),
   ("riot games", mkInfo "United States" "5000-20000" ">1B"),
   ("ea", mkInfo "United States" ">20000" ">1B"),
   ("cd projekt red", mkInfo "Poland" "5000-20000" "500M-1B")]

/-! ### Config loader (qualifier_engine.py lines 69-96) -/

/-- Model of `load_json`: a missing file yields an empty dict, and a
parse failure is caught internally, also yielding an empty dict. -/
def load_json (file : Option String) : Json :=
  match file with
  | none => Json.obj []
  | some content =>
    match json_loads content with
    | some j => j
    | none => Json.obj []

/-- Result of `_load_config`: the returned mapping, plus the content
written back to disk (`none` when the file is left untouched). -/
structure ConfigResult where
  value : Json
  written : Option Json

/-- Model of `_load_config`.  When the file is missing, the default is
written to disk and returned.  Otherwise the file is read through
`load_json`; the `except` fallback to the default in the source is dead
code, because `load_json` already converts every failure into an empty
dict and never raises. -/
def load_config (file : Option String) (dflt : Json) : ConfigResult :=
  match file with
  | none => { value := dflt, written := some dflt }
  | some content => { value := load_json (some content), written := none }

/-! ### Engine state and the oracle (qualifier_engine.py lines 204-238)

The oracle is a function from prompts to optional free-text replies; a
`none` reply covers both a missing credential and exhausted retries.
Each call through `rate_limited_groq` is appended to a log, mirroring the
source's per-window call counter (`CALLS_IN_WINDOW += 1`).  Prompts are
identified by which template is filled with which argument. -/

/-- The three prompt templates of the engine. -/
inductive Prompt where
  | classifyTitle (title : String)
  | companyInfo (company : String)
  | industryQuestion (company : String)
deriving DecidableEq, Repr

/-- In-memory engine state: the three JSON-backed caches and the log of
oracle calls made so far. -/
structure EngineState where
  classifyCache : List (String × Json)
  companyCache : List (String × Json)
  industryCache : List (String × Bool)
  oracleLog : List Prompt

/-- Association-list lookup (Python `key in dict` / `dict[key]`). -/
def alistLookup {α : Type} (l : List (String × α)) (k : String) : Option α :=
  (l.find? (fun p => p.1 == k)).map (fun p => p.2)

/-- Association-list update with Python-dict semantics: an existing key
is overwritten in place, a new key is appended. -/
def alistInsert {α : Type} (l : List (String × α)) (k : String) (v : α) :
    List (String × α) :=
  if (l.find? (fun p => p.1 == k)).isSome then
    l.map (fun p => if p.1 == k then (k, v) else p)
  else l ++ [(k, v)]

/-- Model of `rate_limited_groq`: records the call and returns the
oracle's reply (absent when unconfigured or failing). -/
def rate_limited_groq (oracle : Prompt → Option String) (st : EngineState)
    (p : Prompt) : Option String × EngineState :=
  (oracle p, { st with oracleLog := st.oracleLog ++ [p] })

/-! ### Classifiers (qualifier_engine.py lines 265-360) -/

/-- Converts a service-mapping value to the returned classification
dict: a list of length at least two yields its first two entries, a dict
yields its `detailed_service` / `service_bucket` entries with defaults.
Any other shape makes the scan fall through to the next key. -/
def serviceValueToResult : Json → Option Json
  | Json.arr (a :: b :: _) =>
    some (Json.obj [("detailed_service", a), ("service_bucket", b)])
  | Json.obj fields =>
    some (Json.obj
      [("detailed_service", (alistLookup fields "detailed_service").getD (Json.str "Unknown")),
       ("service_bucket", (alistLookup fields "service_bucket").getD (Json.str "None"))])
  | _ => none

/-- The scan of `classify_service_rule`: try the mapping keys in the
given (length-sorted) order; on a substring hit, convert the mapping's
value, falling through if the value has an unusable shape. -/
def scanServiceKeys (t : String) : List String → Option Json
  | [] => none
  | key :: rest =>
    if strIn key t then
      match serviceValueToResult ((alistLookup SERVICE_MAPPING key).getD Json.null) with
      | some r => some r
      | none => scanServiceKeys t rest
    else scanServiceKeys t rest

/-- Model of `classify_service_rule`: longest-first substring scan of
the service-mapping keys over the normalized title. -/
def classify_service_rule (title : String) : Option Json :=
  scanServiceKeys (normalize_title title) SERVICE_KEYS_SORTED

/-- Python truthiness of a JSON value (`if parsed ...`). -/
def Json.truthy : Json → Bool
  | Json.null => false
  | Json.bool b => b
  | Json.num n => n != 0
  | Json.str s => s != ""
  | Json.arr l => !l.isEmpty
  | Json.obj fs => !fs.isEmpty

/-- Python `k in parsed` for a JSON value: key membership for dicts,
element equality for lists, substring for strings.  (On numbers or
booleans CPython raises `TypeError`; that case is modelled as `false`
and is not exercised by any claim.) -/
def Json.hasMember (j : Json) (k : String) : Bool :=
  match j with
  | Json.obj fields => fields.any (fun p => p.1 == k)
  | Json.arr l => l.any (fun e => match e with | Json.str s => s == k | _ => false)
  | Json.str s => strIn k s
  | _ => false

/-- The fixed Unknown/None classification used when rule, cache and
oracle all fail. -/
def unknownService : Json :=
  Json.obj [("detailed_service", Json.str "Unknown"), ("service_bucket", Json.str "None")]

/-- Model of `classify_service`: classify cache first (keyed by the
normalized title), then the rule table (writing a hit through to the
cache), then the oracle with JSON repair, accepting a reply only when it
carries both required keys, else the fixed Unknown/None fallback. -/
def classify_service (oracle : Prompt → Option String) (st : EngineState)
    (title : String) : Json × EngineState :=
  let key := normalize_title title
  match alistLookup st.classifyCache key with
  | some v => (v, st)
  | none =>
    match classify_service_rule title with
    | some rule =>
      (rule, { st with classifyCache := alistInsert st.classifyCache key rule })
    | none =>
      let (out, st1) := rate_limited_groq oracle st (Prompt.classifyTitle title)
      let parsed := repair_json out
      match parsed with
      | some p =>
        if p.truthy && p.hasMember "detailed_service" && p.hasMember "service_bucket" then
          (p, { st1 with classifyCache := alistInsert st1.classifyCache key p })
        else
          (unknownService, { st1 with classifyCache := alistInsert st1.classifyCache key unknownService })
      | none =>
        (unknownService, { st1 with classifyCache := alistInsert st1.classifyCache key unknownService })

/-- The all-Unknown company profile used when the oracle reply is
missing or incomplete. -/
def unknownInfo : Json :=
  Json.obj [("hq_country", Json.str "Unknown"), ("employees", Json.str "Unknown"),
            ("revenue", Json.str "Unknown")]

/-- Model of `get_company_info`: curated trusted stats first (exact
lowercased-trimmed name), then the company cache, then the oracle with
JSON repair, validated to carry all three keys, else all-Unknown; oracle
outcomes are written through to the cache. -/
def get_company_info (oracle : Prompt → Option String) (st : EngineState)
    (company : String) : Json × EngineState :=
  let key := pyStrip (pyLower company)
  match alistLookup TRUSTED_STATS key with
  | some v => (v, st)
  | none =>
    match alistLookup st.companyCache key with
    | some v => (v, st)
    | none =>
      let (out, st1) := rate_limited_groq oracle st (Prompt.companyInfo company)
      let parsed := repair_json out
      match parsed with
      | some p =>
        if p.truthy && p.hasMember "hq_country" && p.hasMember "employees" && p.hasMember "revenue" then
          (p, { st1 with companyCache := alistInsert st1.companyCache key p })
        else
          (unknownInfo, { st1 with companyCache := alistInsert st1.companyCache key unknownInfo })
      | none =>
        (unknownInfo, { st1 with companyCache := alistInsert st1.companyCache key unknownInfo })

/-- The truthy-yes test on the oracle's reply to the industry question
(`out and "yes" in out.lower()`). -/
def oracleYes (out : Option String) : Bool :=
  match out with
  | some s => s != "" && strIn "yes" (pyLower s)
  | none => false

/-- The industry-cache key: lowercased-trimmed company, double bar,
normalized title. -/
def industryKey (company title : String) : String :=
  pyStrip (pyLower company) ++ "||" ++ normalize_title title

/-- Model of `detect_industry`: industry cache first (keyed by
lowercased-trimmed company, double bar, normalized title), then the
forced-non-gaming exact list, then trusted-company substring match, then
gaming name tokens, then the oracle yes/no question; every non-cache
branch writes its verdict through to the cache. -/
def detect_industry (oracle : Prompt → Option String) (st : EngineState)
    (company title : String) : Bool × EngineState :=
  let key := industryKey company title
  match alistLookup st.industryCache key with
  | some b => (b, st)
  | none =>
    let companyLower := pyStrip (pyLower company)
    if FORCED_NON_GAMING.contains companyLower then
      (false, { st with industryCache := alistInsert st.industryCache key false })
    else if TRUSTED_GAME_COMPANIES.any (fun n => strIn n companyLower) then
      (true, { st with industryCache := alistInsert st.industryCache key true })
    else if GAMING_NAME_TOKENS.any (fun k => strIn k companyLower) then
      (true, { st with industryCache := alistInsert st.industryCache key true })
    else
      let (out, st1) := rate_limited_groq oracle st (Prompt.industryQuestion company)
      let yes := oracleYes out
      (yes, { st1 with industryCache := alistInsert st1.industryCache key yes })

/-! ### Scoring (qualifier_engine.py lines 365-402)

Scores are integers; the weighted composite is a rational, standing for
the Python float.  Every reachable composite is an integer multiple of
1/100 (integer weights times scores in 0..100, divided by 100), where
rational arithmetic coincides with float arithmetic and `round(x, 2)`
is modelled exactly by rounding at the second decimal. -/

/-- Employee-range points: mid tiers 60, large tiers 100, else 0. -/
def score_employees (emp : String) : Int :=
  if ["50-500", "500-5000"].contains emp then 60
  else if ["5000-20000", ">20000"].contains emp then 100
  else 0

/-- Revenue-range points: mid tier 60, large tiers 100, else 0. -/
def score_revenue (rev : String) : Int :=
  if ["50M-500M"].contains rev then 60
  else if ["500M-1B", ">1B"].contains rev then 100
  else 0

/-- Region points: 100 when any good region occurs as a substring of
the lowercased HQ country, else 0 (and 0 for an empty country). -/
def score_region (hq : String) : Int :=
  if hq = "" then 0
  else if GOOD_REGIONS.any (fun r => strIn r (pyLower hq)) then 100
  else 0

/-- Service points: 100 for the three real buckets, else 0. -/
def score_service (bucket : String) : Int :=
  if bucket = "Art" || bucket = "Co-Dev" || bucket = "Full" then 100 else 0

/-- Industry points: 100 when flagged gaming, else 0. -/
def score_industry (indOk : Bool) : Int :=
  if indOk then 100 else 0

/-- The default per-signal weights (`icp_rules.weights`). -/
def WEIGHTS_employees : Int := 25

/-- Revenue weight. -/
def WEIGHTS_revenue : Int := 25

/-- Region weight. -/
def WEIGHTS_region : Int := 20

/-- Service weight. -/
def WEIGHTS_service : Int := 15

/-- Industry weight. -/
def WEIGHTS_industry : Int := 15

/-- The default qualification threshold (`icp_rules.score_threshold`). -/
def SCORE_THRESHOLD : ℚ := 75

/-- Rounding at the second decimal (`round(x, 2)`).  On the engine's
reachable scores the argument times 100 is an integer, so this is exact
and agrees with Python's banker's rounding. -/
def round2 (q : ℚ) : ℚ := (round (q * 100) : ℚ) / 100

/-- Model of `weighted_score`: weight the five signal scores, divide by
100, round to two decimals. -/
def weighted_score (emp rev hq bucket : String) (industry_ok : Bool) : ℚ :=
  let e := score_employees emp
  let r := score_revenue rev
  let reg := score_region hq
  let s := score_service bucket
  let i := score_industry industry_ok
  round2 (((e * WEIGHTS_employees + r * WEIGHTS_revenue + reg * WEIGHTS_region
            + s * WEIGHTS_service + i * WEIGHTS_industry : Int) : ℚ) / 100)

/-! ### Decision (qualifier_engine.py lines 404-446) -/

/-- Python `int()` truncation toward zero on a rational. -/
def pyTrunc (q : ℚ) : Int :=
  if 0 ≤ q then ⌊q⌋ else -⌊-q⌋

/-- Decimal rendering of a nonnegative score that is a multiple of
1/100, matching the shortest `repr` Python uses inside an f-string for
such floats (e.g. 100 renders as "100.0", 80.5 as "80.5", 79.25 as
"79.25"). -/
def pyFloatRepr (q : ℚ) : String :=
  let n : Int := round (q * 100)
  let i := n / 100
  let f := n % 100
  if f == 0 then toString i ++ ".0"
  else if f % 10 == 0 then toString i ++ "." ++ toString (f / 10)
  else if f < 10 then toString i ++ ".0" ++ toString f
  else toString i ++ "." ++ toString f

/-- A qualification verdict as the decision dict of the source: the
`score` key is absent from `legacy_qualify`'s result and attached by
`decide`. -/
structure Verdict where
  decision : String
  reason : String
  confidence : String
  score : Option ℚ
deriving DecidableEq, Repr

/-- Model of `legacy_qualify`: five boolean criteria, each contributing
a reason string; all must pass for Qualified (confidence 95%), else Not
Qualified with the comma-joined reasons (confidence 75%). -/
def legacy_qualify (company bucket detailed hq emp rev : String)
    (industry_pass : Bool) : Verdict :=
  let empOk := ["50-500", "500-5000", "5000-20000", ">20000"].contains emp
  let revOk := ["50M-500M", "500M-1B", ">1B"].contains rev
  let regOk := GOOD_REGIONS.any (fun r => strIn r (pyLower hq))
  let svcOk := bucket ≠ "None"
  let reasons :=
    [if empOk then "employee size ok" else "employee size too small",
     if revOk then "revenue ok" else "revenue too low",
     if regOk then "region ok" else "region outside ICP",
     if svcOk then "service relevant" else "service mismatch",
     if industry_pass then "gaming industry match" else "not gaming industry"]
  if empOk && revOk && regOk && svcOk && industry_pass then
    { decision := "Qualified",
      reason := company ++ " matches ICP (" ++ String.intercalate ", " reasons ++ ").",
      confidence := "95%", score := none }
  else
    { decision := "Not Qualified", reason := String.intercalate ", " reasons,
      confidence := "75%", score := none }

/-- Model of `decide`: take the legacy verdict when it qualifies
(attaching the score); otherwise qualify on weighted score at or above
the threshold (75, also rendered in the reason text); otherwise the
legacy Not Qualified verdict with the score attached. -/
def decide (company bucket detailed hq emp rev : String)
    (industry_pass : Bool) : Verdict :=
  let legacy := legacy_qualify company bucket detailed hq emp rev industry_pass
  let score := weighted_score emp rev hq bucket industry_pass
  if legacy.decision == "Qualified" then { legacy with score := some score }
  else if SCORE_THRESHOLD ≤ score then
    { decision := "Qualified",
      reason := company ++ " passes weighted score (" ++ pyFloatRepr score ++ " >= 75).",
      confidence := toString (pyTrunc score) ++ "%",
      score := some score }
  else { legacy with score := some score }

/-! ### Batch processing (qualifier_engine.py lines 463-590)

The loop is modelled on a fresh run: no checkpoint file and no partial
results file, so the processed-index set, seen-URL set and result list
start empty; the caches start from whatever the cache files held
(a parameter).  Periodic persistence, logging and sleeps are I/O that do
not affect the computed results. -/

/-- One input row (each field is passed through `str(...)`; missing
columns arrive as the empty string). -/
structure Row where
  company : String
  title : String
  url : String
deriving DecidableEq, Repr

/-- One output record, with the fields the engine writes per row. -/
structure OutRecord where
  company : String
  title : String
  detailed_service : String
  service_bucket : String
  hq : String
  employees : String
  revenue : String
  industry_match : Bool
  decision : String
  reason : String
  confidence : String
  score : ℚ
  url : String
  source_index : Nat

/-- String projection out of a profile/classification dict
(`info["hq_country"]` and the like).  Engine-produced dicts always hold
strings at the projected keys; a malformed oracle reply could put
something else there, on which Python would raise later — modelled as
the empty string, a case no claim exercises. -/
def Json.strAt (j : Json) (k : String) : String :=
  match j with
  | Json.obj fields =>
    match alistLookup fields k with
    | some (Json.str s) => s
    | _ => ""
  | _ => ""

/-- The fixed short-circuit record emitted for a row whose title is not
a game role. -/
def nonGameRecord (company title url : String) (idx : Nat) : OutRecord :=
  { company := company, title := title,
    detailed_service := "Non-Game Role", service_bucket := "None",
    hq := "Unknown", employees := "Unknown", revenue := "Unknown",
    industry_match := false, decision := "Not Qualified",
    reason := "Role not related to game development.",
    confidence := "100%", score := 0, url := url, source_index := idx }

/-- Loop state of `process_dataframe`: engine caches/oracle log, the
processed-index set, the seen-URL set, and the accumulated results. -/
structure LoopState where
  engine : EngineState
  processed : List Nat
  seenUrls : List String
  results : List OutRecord

/-- One iteration of the `process_dataframe` loop on row `idx`:
skip already-processed indices; mark-and-skip rows with an empty title
or company; mark-and-skip rows whose non-empty URL was already seen;
short-circuit non-game roles to a fixed Not Qualified record; otherwise
classify, enrich, detect industry and decide. -/
def processRowStep (oracle : Prompt → Option String) (s : LoopState)
    (idx : Nat) (row : Row) : LoopState :=
  if s.processed.contains idx then s
  else
    let company := pyStrip row.company
    let title := pyStrip row.title
    let url := pyStrip row.url
    if title = "" || company = "" then
      { s with processed := s.processed ++ [idx] }
    else if url ≠ "" && s.seenUrls.contains url then
      { s with processed := s.processed ++ [idx] }
    else if !(is_game_role title) then
      let r : OutRecord := nonGameRecord company title url idx
      { s with results := s.results ++ [r],
               processed := s.processed ++ [idx],
               seenUrls := if url ≠ "" then s.seenUrls ++ [url] else s.seenUrls }
    else
      let (svc, e1) := classify_service oracle s.engine title
      let (info, e2) := get_company_info oracle e1 company
      let (ind, e3) := detect_industry oracle e2 company title
      let dec := decide company (svc.strAt "service_bucket")
        (svc.strAt "detailed_service") (info.strAt "hq_country")
        (info.strAt "employees") (info.strAt "revenue") ind
      let r : OutRecord :=
        { company := company, title := title,
          detailed_service := svc.strAt "detailed_service",
          service_bucket := svc.strAt "service_bucket",
          hq := info.strAt "hq_country", employees := info.strAt "employees",
          revenue := info.strAt "revenue", industry_match := ind,
          decision := dec.decision, reason := dec.reason,
          confidence := dec.confidence,
          score := dec.score.getD (weighted_score (info.strAt "employees")
            (info.strAt "revenue") (info.strAt "hq_country")
            (svc.strAt "service_bucket") ind),
          url := url, source_index := idx }
      { engine := e3, results := s.results ++ [r],
        processed := s.processed ++ [idx],
        seenUrls := if url ≠ "" then s.seenUrls ++ [url] else s.seenUrls }

/-- The loop state at the start of a fresh run (no checkpoint, no
partial results on disk). -/
def initialLoopState (engine0 : EngineState) : LoopState :=
  { engine := engine0, processed := [], seenUrls := [], results := [] }

/-- Model of `process_dataframe` on a fresh run: fold the row step over
the rows in order, indices as produced by the dataframe enumeration. -/
def process_dataframe (oracle : Prompt → Option String)
    (engine0 : EngineState) (rows : List Row) : LoopState :=
  rows.enum.foldl (fun s p => processRowStep oracle s p.1 p.2)
    (initialLoopState engine0)

/-- Model of `run_icp_engine_logic`: the single-row entry point,
returning the ten-tuple (score, decision, reason, bucket, detailed, hq,
employees, revenue, industry, confidence) and the updated state. -/
def run_icp_engine_logic (oracle : Prompt → Option String)
    (st : EngineState) (company title : String) :
    (ℚ × String × String × String × String × String × String × String × Bool × String) × EngineState :=
  if !(is_game_role title) then
    ((0, "Not Qualified", "Role not related to game development.", "None",
      "Non-Game Role", "Unknown", "Unknown", "Unknown", false, "100%"), st)
  else
    let (svc, e1) := classify_service oracle st title
    let (info, e2) := get_company_info oracle e1 company
    let (ind, e3) := detect_industry oracle e2 company title
    let dec := decide company (svc.strAt "service_bucket")
      (svc.strAt "detailed_service") (info.strAt "hq_country")
      (info.strAt "employees") (info.strAt "revenue") ind
    ((dec.score.getD 0, dec.decision, dec.reason, svc.strAt "service_bucket",
      svc.strAt "detailed_service", info.strAt "hq_country",
      info.strAt "employees", info.strAt "revenue", ind, dec.confidence), e3)

/-! ### Fixtures and auxiliary predicates used by concrete theorems below -/

/-- The engine state on a cold start: all caches empty, no oracle call
made yet. -/
def emptyEngineState : EngineState :=
  { classifyCache := [], companyCache := [], industryCache := [], oracleLog := [] }

/-- The classification dict for the `animator` mapping entry. -/
def animatorResult : Json :=
  Json.obj [("detailed_service", Json.str "Animation"), ("service_bucket", Json.str "Art")]

/-- The classification dict for the `engine programmer` mapping entry. -/
def programmingResult : Json :=
  Json.obj [("detailed_service", Json.str "Programming"), ("service_bucket", Json.str "Co-Dev")]

/-- The classification dict for the `technical animator` mapping entry. -/
def technicalAnimationResult : Json :=
  Json.obj [("detailed_service", Json.str "Technical Animation"), ("service_bucket", Json.str "Art")]

/-- A divergent cached classification for the normalized title
`animator`, standing for a stale or hand-edited cache file entry. -/
def fakeService : Json :=
  Json.obj [("detailed_service", Json.str "Bogus"), ("service_bucket", Json.str "None")]

/-- An engine state whose classify cache already maps `animator` to the
divergent entry. -/
def divergentClassifyState : EngineState :=
  { emptyEngineState with classifyCache := [("animator", fakeService)] }

/-- An engine state whose industry cache already holds `true` for the
LinkedIn/Engineer key, although LinkedIn is on the forced-exclusion
list. -/
def divergentIndustryState : EngineState :=
  { emptyEngineState with industryCache := [("linkedin||engineer", true)] }

/-- The spec's malformed-oracle-text example
(single-quoted JSON wrapped in prose). -/
def oracleTextExample : String :=
  "here" ++ sq ++ "s your answer: \x7b" ++ sq ++ "detailed_service" ++ sq ++
  ": " ++ sq ++ "Art" ++ sq ++ ", " ++ sq ++ "service_bucket" ++ sq ++ ": " ++
  sq ++ "Art" ++ sq ++ "\x7d thanks"

/-- The brace-delimited substring of the example, on its own. -/
def oracleBraceExample : String :=
  "\x7b" ++ sq ++ "detailed_service" ++ sq ++ ": " ++ sq ++ "Art" ++ sq ++
  ", " ++ sq ++ "service_bucket" ++ sq ++ ": " ++ sq ++ "Art" ++ sq ++ "\x7d"

/-- The mapping the spec expects the example to parse to. -/
def artArtResult : Json :=
  Json.obj [("detailed_service", Json.str "Art"), ("service_bucket", Json.str "Art")]

/-- The URL-uniqueness invariant of the batch loop: every emitted record
with a non-empty URL has that URL in the seen set, and no record's
non-empty URL reappears in a later record. -/
def UrlInv (s : LoopState) : Prop :=
  (∀ r ∈ s.results, r.url ≠ "" → r.url ∈ s.seenUrls) ∧
  s.results.Pairwise (fun a b => a.url ≠ "" → a.url ≠ b.url)

/-- A loop state mid-run: row 0 (a record for URL `http://x`) has been
processed and its URL is in the seen set. -/
def midRunState : LoopState :=
  { engine := emptyEngineState, processed := [0], seenUrls := ["http://x"],
    results := [nonGameRecord "Epic Games" "Accountant" "http://x" 0] }

/-! ## Theorems -/

/-- C10 counterexample: the claim's example countries score 0, because
the configured good regions are the region names (such as "uk"), which
do not include "us", so neither "belarus" nor "russia" contains any of
them. -/
theorem claim10_counterexample :
    score_region "Belarus" = 0 ∧ score_region "Russia" = 0 ∧
    GOOD_REGIONS.contains "us" = false := by
  refine ⟨by decide, by decide, by decide⟩

/-- C10 (amended): there is an HQ country string that is not itself a
configured good region but scores 100 and passes the legacy region
criterion, because matching is by substring of the lowercased country
name against the good-region names: "Ukraine" contains "uk". -/
theorem claim10_thm :
    score_region "Ukraine" = 100 ∧
    GOOD_REGIONS.contains (pyLower "Ukraine") = false ∧
    strIn "uk" (pyLower "Ukraine") = true ∧
    (legacy_qualify "Acme" "Art" "X" "Ukraine" ">20000" ">1B" true).decision
      = "Qualified" := by
  refine ⟨by decide, by decide, by decide, by decide⟩

/-- C4: with the config file present but malformed, the loader returns
the empty mapping — not the supplied default — while leaving the file
untouched and raising nothing; `load_json` swallows the parse failure,
so `_load_config`'s fallback to the default is dead code. -/
theorem claim4_thm :
    load_config (some "\x7bmalformed") DEFAULT_SERVICE_MAPPING_JSON
      = { value := Json.obj [], written := none } ∧
    (DEFAULT_SERVICE_MAPPING_JSON.hasMember "animation" = true ∧
     (Json.obj []).hasMember "animation" = false) := by
  exact ⟨rfl, by decide, by decide⟩

/-- C3 counterexample: on the spec's example text, all three repair
steps fail — the substitution step rewrites the whole text, where the
apostrophe of "here's" becomes an unbalanced double quote — so
`repair_json` returns `none`, not the expected mapping. -/
theorem claim3_counterexample :
    repair_json (some oracleTextExample) = none := by
  rfl

/-- C3 (amended): the example text itself fails every repair step and
yields `none`; the brace-delimited substring alone, however, is repaired
by the quote-substitution step into the expected mapping. -/
theorem claim3_thm :
    repair_json (some oracleTextExample) = none ∧
    repair_json (some oracleBraceExample) = some artArtResult := by
  exact ⟨rfl, rfl⟩

/-- Rounding at the second decimal is exact on integer multiples of
1/100. -/
theorem round2_intCast_div (n : ℤ) : round2 ((n : ℚ) / 100) = (n : ℚ) / 100 := by
  unfold round2
  rw [div_mul_cancel₀ _ (by norm_num : (100 : ℚ) ≠ 0), round_intCast]

/-- Employee points take only the values 0, 60, 100. -/
theorem score_employees_cases (emp : String) :
    score_employees emp = 0 ∨ score_employees emp = 60 ∨ score_employees emp = 100 := by
  unfold score_employees
  split
  · exact Or.inr (Or.inl rfl)
  · split
    · exact Or.inr (Or.inr rfl)
    · exact Or.inl rfl

/-- Revenue points take only the values 0, 60, 100. -/
theorem score_revenue_cases (rev : String) :
    score_revenue rev = 0 ∨ score_revenue rev = 60 ∨ score_revenue rev = 100 := by
  unfold score_revenue
  split
  · exact Or.inr (Or.inl rfl)
  · split
    · exact Or.inr (Or.inr rfl)
    · exact Or.inl rfl

/-- Region points take only the values 0, 100. -/
theorem score_region_cases (hq : String) :
    score_region hq = 0 ∨ score_region hq = 100 := by
  unfold score_region
  split
  · exact Or.inl rfl
  · split
    · exact Or.inr rfl
    · exact Or.inl rfl

/-- Service points take only the values 0, 100. -/
theorem score_service_cases (b : String) :
    score_service b = 0 ∨ score_service b = 100 := by
  unfold score_service
  split
  · exact Or.inr rfl
  · exact Or.inl rfl

/-- Industry points take only the values 0, 100. -/
theorem score_industry_cases (i : Bool) :
    score_industry i = 0 ∨ score_industry i = 100 := by
  unfold score_industry
  split
  · exact Or.inr rfl
  · exact Or.inl rfl

/-- The weighted score in closed form: weighted signal sum over 100,
with the rounding dropped because the value is an exact multiple of
1/100. -/
theorem weighted_score_eq (emp rev hq bucket : String) (ind : Bool) :
    weighted_score emp rev hq bucket ind
      = ((score_employees emp * WEIGHTS_employees + score_revenue rev * WEIGHTS_revenue
          + score_region hq * WEIGHTS_region + score_service bucket * WEIGHTS_service
          + score_industry ind * WEIGHTS_industry : ℤ) : ℚ) / 100 :=
  round2_intCast_div _

/-- C7: the weighted score is the weighted sum of the five signal
points over 100 rounded at two decimals, each signal contributes only
0, 60 or 100 points, the composite always lies in 0..100 with the
default weights, and the all-maxed example evaluates to exactly 100. -/
theorem claim7_thm :
    (∀ (emp rev hq bucket : String) (ind : Bool),
       weighted_score emp rev hq bucket ind
         = round2 (((score_employees emp * WEIGHTS_employees
             + score_revenue rev * WEIGHTS_revenue + score_region hq * WEIGHTS_region
             + score_service bucket * WEIGHTS_service
             + score_industry ind * WEIGHTS_industry : ℤ) : ℚ) / 100)) ∧
    (∀ emp, score_employees emp = 0 ∨ score_employees emp = 60 ∨ score_employees emp = 100) ∧
    (∀ rev, score_revenue rev = 0 ∨ score_revenue rev = 60 ∨ score_revenue rev = 100) ∧
    (∀ hq, score_region hq = 0 ∨ score_region hq = 100) ∧
    (∀ b, score_service b = 0 ∨ score_service b = 100) ∧
    (∀ i, score_industry i = 0 ∨ score_industry i = 100) ∧
    (∀ (emp rev hq bucket : String) (ind : Bool),
       0 ≤ weighted_score emp rev hq bucket ind ∧ weighted_score emp rev hq bucket ind ≤ 100) ∧
    weighted_score ">20000" ">1B" "United States" "Art" true = 100 := by
  refine ⟨fun emp rev hq bucket ind => rfl, score_employees_cases, score_revenue_cases,
    score_region_cases, score_service_cases, score_industry_cases, ?_, ?_⟩
  case refine_2 =>
    have e1 : score_employees ">20000" = 100 := by decide
    have e2 : score_revenue ">1B" = 100 := by decide
    have e3 : score_region "United States" = 100 := by decide
    have e4 : score_service "Art" = 100 := by decide
    have e5 : score_industry true = 100 := by decide
    rw [weighted_score_eq, e1, e2, e3, e4, e5]
    norm_num [WEIGHTS_employees, WEIGHTS_revenue, WEIGHTS_region, WEIGHTS_service,
      WEIGHTS_industry]
  intro emp rev hq bucket ind
  have he : 0 ≤ score_employees emp ∧ score_employees emp ≤ 100 := by
    rcases score_employees_cases emp with h | h | h <;> simp [h]
  have hr : 0 ≤ score_revenue rev ∧ score_revenue rev ≤ 100 := by
    rcases score_revenue_cases rev with h | h | h <;> simp [h]
  have hg : 0 ≤ score_region hq ∧ score_region hq ≤ 100 := by
    rcases score_region_cases hq with h | h <;> simp [h]
  have hs : 0 ≤ score_service bucket ∧ score_service bucket ≤ 100 := by
    rcases score_service_cases bucket with h | h <;> simp [h]
  have hi : 0 ≤ score_industry ind ∧ score_industry ind ≤ 100 := by
    rcases score_industry_cases ind with h | h <;> simp [h]
  have h1 : (0 : ℤ) ≤ score_employees emp * WEIGHTS_employees
      + score_revenue rev * WEIGHTS_revenue + score_region hq * WEIGHTS_region
      + score_service bucket * WEIGHTS_service + score_industry ind * WEIGHTS_industry := by
    simp only [WEIGHTS_employees, WEIGHTS_revenue, WEIGHTS_region, WEIGHTS_service,
      WEIGHTS_industry]
    omega
  have h2 : score_employees emp * WEIGHTS_employees
      + score_revenue rev * WEIGHTS_revenue + score_region hq * WEIGHTS_region
      + score_service bucket * WEIGHTS_service + score_industry ind * WEIGHTS_industry
      ≤ (10000 : ℤ) := by
    simp only [WEIGHTS_employees, WEIGHTS_revenue, WEIGHTS_region, WEIGHTS_service,
      WEIGHTS_industry]
    omega
  rw [weighted_score_eq]
  constructor
  · apply div_nonneg _ (by norm_num : (0 : ℚ) ≤ 100)
    exact_mod_cast h1
  · rw [div_le_iff₀ (by norm_num : (0 : ℚ) < 100)]
    have hle : ((score_employees emp * WEIGHTS_employees + score_revenue rev * WEIGHTS_revenue
        + score_region hq * WEIGHTS_region + score_service bucket * WEIGHTS_service
        + score_industry ind * WEIGHTS_industry : ℤ) : ℚ) ≤ (10000 : ℚ) := by
      exact_mod_cast h2
    linarith

/-- C1 counterexample: with a divergent cache entry for the normalized
title "animator", `classify_service` returns the cached value — not the
service mapping's value — although the title contains the configured
key; the cache, not the rule table, is consulted first. -/
theorem claim1_counterexample :
    strIn "animator" (normalize_title "Animator") = true ∧
    alistLookup SERVICE_MAPPING "animator"
      = some (Json.arr [Json.str "Animation", Json.str "Art"]) ∧
    classify_service (fun _ => none) divergentClassifyState "Animator"
      = (fakeService, divergentClassifyState) ∧
    fakeService.strAt "detailed_service" ≠ animatorResult.strAt "detailed_service" := by
  exact ⟨by decide, rfl, rfl, by decide⟩

/-- C2 counterexample: with a cached `true` for the LinkedIn/Engineer
key, `detect_industry` returns `true` although "linkedin" is on the
forced-exclusion list; the cache, not the exclusion list, is consulted
first. -/
theorem claim2_counterexample :
    FORCED_NON_GAMING.contains (pyStrip (pyLower "LinkedIn")) = true ∧
    industryKey "LinkedIn" "Engineer" = "linkedin||engineer" ∧
    detect_industry (fun _ => none) divergentIndustryState "LinkedIn" "Engineer"
      = (true, divergentIndustryState) := by
  exact ⟨by decide, rfl, rfl⟩

/-- C8 counterexample: a title in which both "engineer" and "engine
programmer" occur, but also the longer key "technical animator"; the
classifier returns the technical-animator mapping, not the
engine-programmer mapping. -/
theorem claim8_counterexample :
    strIn "engineer" (normalize_title "technical animator engine programmer engineer") = true ∧
    strIn "engine programmer" (normalize_title "technical animator engine programmer engineer") = true ∧
    classify_service_rule "technical animator engine programmer engineer"
      = some technicalAnimationResult ∧
    technicalAnimationResult.strAt "detailed_service"
      ≠ programmingResult.strAt "detailed_service" := by
  exact ⟨by decide, by decide, rfl, by decide⟩

/-- C1 (amended): the classify cache is consulted before the rule
table — a cache hit on the normalized title is returned as-is with no
state change; on a cache miss, a title containing a configured mapping
key gets that mapping's value, written through to the cache, with no
oracle call, for every oracle and cache state. -/
theorem claim1_thm :
    (∀ (oracle : Prompt → Option String) (st : EngineState) (title : String) (v : Json),
       alistLookup st.classifyCache (normalize_title title) = some v →
       classify_service oracle st title = (v, st)) ∧
    (∀ (oracle : Prompt → Option String) (st : EngineState) (title : String) (v : Json),
       alistLookup st.classifyCache (normalize_title title) = none →
       classify_service_rule title = some v →
       classify_service oracle st title
         = (v, { st with classifyCache := (alistInsert st.classifyCache
                  (normalize_title title) v) })) := by
  constructor
  · intro oracle st title v h
    simp only [classify_service, h]
  · intro oracle st title v h hr
    simp only [classify_service, h, hr]

/-- C1 witness: on a cold cache, the title "Animator" is classified by
the rule table with no oracle involvement. -/
theorem claim1_witness :
    classify_service (fun _ => none) emptyEngineState "Animator"
      = (animatorResult,
         { emptyEngineState with classifyCache := (alistInsert
             emptyEngineState.classifyCache
             (normalize_title "Animator") animatorResult) }) :=
  claim1_thm.2 (fun _ => none) emptyEngineState "Animator" animatorResult rfl rfl

/-- C2 (amended): the industry cache is consulted first and a hit is
returned unchanged; on a miss the branches resolve in order
forced-exclusion, trusted-company substring, gaming name tokens, oracle
yes/no, each writing its verdict through to the cache. -/
theorem claim2_thm :
    (∀ (oracle : Prompt → Option String) (st : EngineState) (company title : String) (b : Bool),
       alistLookup st.industryCache (industryKey company title) = some b →
       detect_industry oracle st company title = (b, st)) ∧
    (∀ (oracle : Prompt → Option String) (st : EngineState) (company title : String),
       alistLookup st.industryCache (industryKey company title) = none →
       FORCED_NON_GAMING.contains (pyStrip (pyLower company)) = true →
       detect_industry oracle st company title
         = (false, { st with industryCache := (alistInsert st.industryCache
              (industryKey company title) false) })) ∧
    (∀ (oracle : Prompt → Option String) (st : EngineState) (company title : String),
       alistLookup st.industryCache (industryKey company title) = none →
       FORCED_NON_GAMING.contains (pyStrip (pyLower company)) = false →
       TRUSTED_GAME_COMPANIES.any (fun n => strIn n (pyStrip (pyLower company))) = true →
       detect_industry oracle st company title
         = (true, { st with industryCache := (alistInsert st.industryCache
              (industryKey company title) true) })) ∧
    (∀ (oracle : Prompt → Option String) (st : EngineState) (company title : String),
       alistLookup st.industryCache (industryKey company title) = none →
       FORCED_NON_GAMING.contains (pyStrip (pyLower company)) = false →
       TRUSTED_GAME_COMPANIES.any (fun n => strIn n (pyStrip (pyLower company))) = false →
       GAMING_NAME_TOKENS.any (fun k => strIn k (pyStrip (pyLower company))) = true →
       detect_industry oracle st company title
         = (true, { st with industryCache := (alistInsert st.industryCache
              (industryKey company title) true) })) ∧
    (∀ (oracle : Prompt → Option String) (st : EngineState) (company title : String),
       alistLookup st.industryCache (industryKey company title) = none →
       FORCED_NON_GAMING.contains (pyStrip (pyLower company)) = false →
       TRUSTED_GAME_COMPANIES.any (fun n => strIn n (pyStrip (pyLower company))) = false →
       GAMING_NAME_TOKENS.any (fun k => strIn k (pyStrip (pyLower company))) = false →
       detect_industry oracle st company title
         = (oracleYes (oracle (Prompt.industryQuestion company)),
            { st with
                industryCache := (alistInsert st.industryCache (industryKey company title)
                  (oracleYes (oracle (Prompt.industryQuestion company)))),
                oracleLog := st.oracleLog ++ [Prompt.industryQuestion company] })) := by
  refine ⟨?_, ?_, ?_, ?_, ?_⟩
  · intro oracle st company title b h
    simp only [detect_industry, h]
  · intro oracle st company title h h1
    simp only [detect_industry, h, h1, if_true]
  · intro oracle st company title h h1 h2
    simp only [detect_industry, h, h1, h2, if_false, if_true, Bool.false_eq_true]
  · intro oracle st company title h h1 h2 h3
    simp only [detect_industry, h, h1, h2, h3, if_false, if_true, Bool.false_eq_true]
  · intro oracle st company title h h1 h2 h3
    simp only [detect_industry, h, h1, h2, h3, if_false, Bool.false_eq_true,
      rate_limited_groq]

/-- C2 witness: on a cold cache, a forced-excluded company is reported
non-gaming and the verdict is cached. -/
theorem claim2_witness :
    detect_industry (fun _ => none) emptyEngineState "LinkedIn" "Engineer"
      = (false, { emptyEngineState with industryCache := (alistInsert
           emptyEngineState.industryCache
           (industryKey "LinkedIn" "Engineer") false) }) :=
  claim2_thm.2.1 (fun _ => none) emptyEngineState "LinkedIn" "Engineer" rfl (by decide)

/-- C5: the decision reconciles the legacy gate with the weighted
score — a legacy Qualified verdict is returned with the score attached;
otherwise a score at or above the threshold (default 75) qualifies with
the weighted-score reason and the integer part of the score as the
confidence percentage; otherwise the legacy Not Qualified verdict is
returned with the score attached. -/
theorem claim5_thm :
    (∀ (company bucket detailed hq emp rev : String) (ind : Bool),
       (legacy_qualify company bucket detailed hq emp rev ind).decision = "Qualified" →
       decide company bucket detailed hq emp rev ind
         = { legacy_qualify company bucket detailed hq emp rev ind with
             score := some (weighted_score emp rev hq bucket ind) }) ∧
    (∀ (company bucket detailed hq emp rev : String) (ind : Bool),
       (legacy_qualify company bucket detailed hq emp rev ind).decision ≠ "Qualified" →
       SCORE_THRESHOLD ≤ weighted_score emp rev hq bucket ind →
       decide company bucket detailed hq emp rev ind
         = { decision := "Qualified",
             reason := company ++ " passes weighted score ("
               ++ pyFloatRepr (weighted_score emp rev hq bucket ind) ++ " >= 75).",
             confidence := toString (pyTrunc (weighted_score emp rev hq bucket ind)) ++ "%",
             score := some (weighted_score emp rev hq bucket ind) }) ∧
    (∀ (company bucket detailed hq emp rev : String) (ind : Bool),
       (legacy_qualify company bucket detailed hq emp rev ind).decision ≠ "Qualified" →
       weighted_score emp rev hq bucket ind < SCORE_THRESHOLD →
       decide company bucket detailed hq emp rev ind
         = { legacy_qualify company bucket detailed hq emp rev ind with
             score := some (weighted_score emp rev hq bucket ind) }) := by
  refine ⟨?_, ?_, ?_⟩
  · intro company bucket detailed hq emp rev ind h
    simp only [Engine.decide, h, beq_self_eq_true, if_true]
  · intro company bucket detailed hq emp rev ind h h2
    have hb : ((legacy_qualify company bucket detailed hq emp rev ind).decision
        == "Qualified") = false := beq_eq_false_iff_ne.mpr h
    simp only [Engine.decide, hb, Bool.false_eq_true, if_false, if_pos h2]
  · intro company bucket detailed hq emp rev ind h h2
    have hb : ((legacy_qualify company bucket detailed hq emp rev ind).decision
        == "Qualified") = false := beq_eq_false_iff_ne.mpr h
    simp only [Engine.decide, hb, Bool.false_eq_true, if_false, if_neg (not_le.mpr h2)]

/-- C5 witness: a lead failing only the region criterion but scoring 80
is overridden to Qualified on weighted score, with confidence "80%". -/
theorem claim5_witness :
    decide "Acme" "Art" "X" "Brazil" ">20000" ">1B" true
      = { decision := "Qualified",
          reason := "Acme passes weighted score ("
            ++ pyFloatRepr (weighted_score ">20000" ">1B" "Brazil" "Art" true) ++ " >= 75).",
          confidence := toString (pyTrunc (weighted_score ">20000" ">1B" "Brazil" "Art" true)) ++ "%",
          score := some (weighted_score ">20000" ">1B" "Brazil" "Art" true) } :=
  claim5_thm.2.1 "Acme" "Art" "X" "Brazil" ">20000" ">1B" true (by decide)
    (by rw [weighted_score_eq, show score_employees ">20000" = 100 from by decide,
          show score_revenue ">1B" = 100 from by decide,
          show score_region "Brazil" = 0 from by decide,
          show score_service "Art" = 100 from by decide,
          show score_industry true = 100 from by decide]
        norm_num [SCORE_THRESHOLD, WEIGHTS_employees, WEIGHTS_revenue, WEIGHTS_region,
          WEIGHTS_service, WEIGHTS_industry])

/-- The iteration order of the service-key scan is a permutation of the
mapping's keys. -/
theorem service_keys_sorted_perm :
    SERVICE_KEYS_SORTED.Perm (SERVICE_MAPPING.map Prod.fst) := by
  decide

/-- The iteration order of the service-key scan is sorted by
nonincreasing key length. -/
theorem service_keys_sorted_sorted :
    SERVICE_KEYS_SORTED.Pairwise (fun a b => b.length ≤ a.length) := by
  decide

/-- Every default mapping value converts to a classification dict (all
are two-element arrays), so the scan never falls through a matching
key. -/
theorem service_values_usable :
    ∀ k ∈ SERVICE_KEYS_SORTED,
      (serviceValueToResult ((alistLookup SERVICE_MAPPING k).getD Json.null)).isSome = true := by
  decide

/-- On a length-sorted key list whose values all convert, a successful
scan returns the value of a matching key of maximal length among all
matching keys. -/
theorem scanServiceKeys_longest (t : String) :
    ∀ (keys : List String),
      keys.Pairwise (fun a b => b.length ≤ a.length) →
      (∀ k ∈ keys, (serviceValueToResult ((alistLookup SERVICE_MAPPING k).getD Json.null)).isSome = true) →
      ∀ v, scanServiceKeys t keys = some v →
      ∃ k, k ∈ keys ∧ strIn k t = true ∧
        serviceValueToResult ((alistLookup SERVICE_MAPPING k).getD Json.null) = some v ∧
        ∀ k2 ∈ keys, strIn k2 t = true → k2.length ≤ k.length := by
  intro keys
  induction keys with
  | nil =>
    intro _ _ v hv
    simp [scanServiceKeys] at hv
  | cons k rest ih =>
    intro hp hu v hv
    rw [List.pairwise_cons] at hp
    by_cases hk : strIn k t = true
    · have husable := hu k (List.mem_cons_self k rest)
      rcases ho : serviceValueToResult ((alistLookup SERVICE_MAPPING k).getD Json.null) with _ | r
      · rw [ho] at husable
        simp at husable
      · have hscan : scanServiceKeys t (k :: rest) = some r := by
          simp [scanServiceKeys, hk, ho]
        rw [hscan] at hv
        injection hv with hv
        subst hv
        refine ⟨k, List.mem_cons_self k rest, hk, ho, ?_⟩
        intro k2 hk2 _
        rcases List.mem_cons.mp hk2 with rfl | hk2r
        · exact le_refl _
        · exact hp.1 k2 hk2r
    · have hkf : strIn k t = false := by
        cases hb : strIn k t
        · rfl
        · exact absurd hb hk
      have hscan : scanServiceKeys t (k :: rest) = scanServiceKeys t rest := by
        simp [scanServiceKeys, hkf]
      rw [hscan] at hv
      obtain ⟨k1, hk1m, hk1t, hk1v, hk1max⟩ :=
        ih hp.2 (fun x hx => hu x (List.mem_cons_of_mem _ hx)) v hv
      refine ⟨k1, List.mem_cons_of_mem _ hk1m, hk1t, hk1v, ?_⟩
      intro k2 hk2 hk2t
      rcases List.mem_cons.mp hk2 with rfl | hk2r
      · rw [hk2t] at hkf
        exact absurd hkf (by decide)
      · exact hk1max k2 hk2r hk2t

/-- C8 (amended): the rule classifier returns the value of a matching
key of maximal length among all matching keys; in particular a title
containing both "engineer" and "engine programmer" — and not containing
the only longer configured key, "technical animator" — classifies to
the engine-programmer mapping. -/
theorem claim8_thm :
    (∀ (title : String) (v : Json), classify_service_rule title = some v →
       ∃ k, k ∈ SERVICE_KEYS_SORTED ∧ strIn k (normalize_title title) = true ∧
         serviceValueToResult ((alistLookup SERVICE_MAPPING k).getD Json.null) = some v ∧
         ∀ k2 ∈ SERVICE_KEYS_SORTED, strIn k2 (normalize_title title) = true →
           k2.length ≤ k.length) ∧
    (∀ title : String,
       strIn "engineer" (normalize_title title) = true →
       strIn "engine programmer" (normalize_title title) = true →
       strIn "technical animator" (normalize_title title) = false →
       classify_service_rule title = some programmingResult) := by
  constructor
  · intro title v hv
    exact scanServiceKeys_longest (normalize_title title) SERVICE_KEYS_SORTED
      service_keys_sorted_sorted service_values_usable v hv
  · intro title h1 h2 h3
    have hval : serviceValueToResult ((alistLookup SERVICE_MAPPING "engine programmer").getD Json.null)
        = some programmingResult := rfl
    unfold classify_service_rule SERVICE_KEYS_SORTED
    simp only [scanServiceKeys, h2, h3, hval, Bool.false_eq_true, if_false, if_true]

/-- C8 witness: a title containing both competing keys and no longer
key classifies to Programming / Co-Dev via the longer key. -/
theorem claim8_witness :
    classify_service_rule "engine programmer engineer" = some programmingResult :=
  claim8_thm.2 "engine programmer engineer" (by decide) (by decide) (by decide)

/-- C6: a title failing the game-role gate short-circuits: the single-row
entry point returns score 0, decision Not Qualified and bucket "None"
with the engine state untouched, and the batch step on such a row emits
exactly the fixed record while leaving the caches and the oracle-call
log unchanged — classifier, enricher, industry detector and oracle are
never invoked. -/
theorem claim6_thm :
    (∀ (oracle : Prompt → Option String) (st : EngineState) (company title : String),
       is_game_role title = false →
       run_icp_engine_logic oracle st company title
         = ((0, "Not Qualified", "Role not related to game development.", "None",
             "Non-Game Role", "Unknown", "Unknown", "Unknown", false, "100%"), st)) ∧
    (∀ (oracle : Prompt → Option String) (s : LoopState) (idx : Nat) (row : Row),
       s.processed.contains idx = false →
       pyStrip row.title ≠ "" →
       pyStrip row.company ≠ "" →
       (pyStrip row.url ≠ "" → s.seenUrls.contains (pyStrip row.url) = false) →
       is_game_role (pyStrip row.title) = false →
       processRowStep oracle s idx row
         = { s with
             results := s.results ++ [nonGameRecord (pyStrip row.company) (pyStrip row.title) (pyStrip row.url) idx],
             processed := s.processed ++ [idx],
             seenUrls := (if pyStrip row.url ≠ "" then s.seenUrls ++ [pyStrip row.url] else s.seenUrls) }) := by
  constructor
  · intro oracle st company title h
    simp only [run_icp_engine_logic, h, Bool.not_false, if_true]
  · intro oracle s idx row h0 h1 h2 h3 h4
    have h0m : idx ∉ s.processed := by simpa using h0
    by_cases hu : pyStrip row.url = ""
    · simp [processRowStep, h0m, h1, h2, h4, hu]
    · have hcm : pyStrip row.url ∉ s.seenUrls := by simpa using h3 hu
      simp [processRowStep, h0m, h1, h2, h4, hu, hcm]

/-- C6 witness: the concrete row "Acme" / "Senior Accountant" is
short-circuited on a cold start. -/
theorem claim6_witness :
    processRowStep (fun _ => none) (initialLoopState emptyEngineState) 0
        (Row.mk "Acme" "Senior Accountant" "u1")
      = { initialLoopState emptyEngineState with
          results := [nonGameRecord "Acme" "Senior Accountant" "u1" 0],
          processed := [0],
          seenUrls := ["u1"] } := by
  have h := claim6_thm.2 (fun _ => none) (initialLoopState emptyEngineState) 0
    (Row.mk "Acme" "Senior Accountant" "u1") (by decide) (by decide) (by decide)
    (by intro _; decide) (by decide)
  simpa using h

/-- Appending a record whose URL is empty or unseen — while adding a
non-empty URL to the seen set — preserves the URL-uniqueness
invariant. -/
theorem urlInv_append (s : LoopState) (e1 : EngineState) (p1 : List Nat)
    (r : OutRecord) (u : String) (hru : r.url = u)
    (hcond : u = "" ∨ u ∉ s.seenUrls) (h : UrlInv s) :
    UrlInv { engine := e1, processed := p1,
             seenUrls := (if u ≠ "" then s.seenUrls ++ [u] else s.seenUrls),
             results := s.results ++ [r] } := by
  constructor
  · intro x hx hxu
    rcases List.mem_append.mp hx with hxm | hxm
    · have hmem := h.1 x hxm hxu
      by_cases hue : u = ""
      · simpa [hue] using hmem
      · simp [hue, List.mem_append]
        exact Or.inl hmem
    · have hx_eq : x = r := by simpa using hxm
      subst hx_eq
      rw [hru] at hxu ⊢
      simp [hxu, List.mem_append]
  · rw [List.pairwise_append]
    refine ⟨h.2, List.pairwise_singleton _ _, ?_⟩
    intro a ha b hb hau
    have hb_eq : b = r := by simpa using hb
    subst hb_eq
    rw [hru]
    rcases hcond with hue | hun
    · rw [hue]
      exact hau
    · intro he
      exact hun (he ▸ h.1 a ha hau)

/-- One batch step preserves the URL-uniqueness invariant. -/
theorem urlInv_step (oracle : Prompt → Option String) (s : LoopState)
    (idx : Nat) (row : Row) (h : UrlInv s) :
    UrlInv (processRowStep oracle s idx row) := by
  by_cases hp : idx ∈ s.processed
  · have he : processRowStep oracle s idx row = s := by
      simp [processRowStep, hp]
    rw [he]
    exact h
  by_cases ht : pyStrip row.title = ""
  · have he : processRowStep oracle s idx row = { s with processed := s.processed ++ [idx] } := by
      simp [processRowStep, hp, ht]
    rw [he]
    exact h
  by_cases hc : pyStrip row.company = ""
  · have he : processRowStep oracle s idx row = { s with processed := s.processed ++ [idx] } := by
      simp [processRowStep, hp, ht, hc]
    rw [he]
    exact h
  by_cases hdup : pyStrip row.url ≠ "" ∧ pyStrip row.url ∈ s.seenUrls
  · have he : processRowStep oracle s idx row = { s with processed := s.processed ++ [idx] } := by
      simp [processRowStep, hp, ht, hc, hdup.1, hdup.2]
    rw [he]
    exact h
  · have hcond : pyStrip row.url = "" ∨ pyStrip row.url ∉ s.seenUrls := by
      by_cases hu : pyStrip row.url = ""
      · exact Or.inl hu
      · exact Or.inr (fun hm => hdup ⟨hu, hm⟩)
    by_cases hg : is_game_role (pyStrip row.title)
    · -- full-classification branch
      have hnm : idx ∉ s.processed := hp
      rcases hcl : classify_service oracle s.engine (pyStrip row.title) with ⟨svc, st1⟩
      rcases hgi : get_company_info oracle st1 (pyStrip row.company) with ⟨info, st2⟩
      rcases hdi : detect_industry oracle st2 (pyStrip row.company) (pyStrip row.title) with ⟨ind, st3⟩
      have he : processRowStep oracle s idx row =
          { engine := st3,
            processed := s.processed ++ [idx],
            seenUrls := (if pyStrip row.url ≠ "" then s.seenUrls ++ [pyStrip row.url] else s.seenUrls),
            results := s.results ++
              [{ company := pyStrip row.company, title := pyStrip row.title,
                 detailed_service := svc.strAt "detailed_service",
                 service_bucket := svc.strAt "service_bucket",
                 hq := info.strAt "hq_country", employees := info.strAt "employees",
                 revenue := info.strAt "revenue", industry_match := ind,
                 decision := (decide (pyStrip row.company) (svc.strAt "service_bucket")
                   (svc.strAt "detailed_service") (info.strAt "hq_country")
                   (info.strAt "employees") (info.strAt "revenue") ind).decision,
                 reason := (decide (pyStrip row.company) (svc.strAt "service_bucket")
                   (svc.strAt "detailed_service") (info.strAt "hq_country")
                   (info.strAt "employees") (info.strAt "revenue") ind).reason,
                 confidence := (decide (pyStrip row.company) (svc.strAt "service_bucket")
                   (svc.strAt "detailed_service") (info.strAt "hq_country")
                   (info.strAt "employees") (info.strAt "revenue") ind).confidence,
                 score := ((decide (pyStrip row.company) (svc.strAt "service_bucket")
                   (svc.strAt "detailed_service") (info.strAt "hq_country")
                   (info.strAt "employees") (info.strAt "revenue") ind).score.getD
                     (weighted_score (info.strAt "employees") (info.strAt "revenue")
                       (info.strAt "hq_country") (svc.strAt "service_bucket") ind)),
                 url := pyStrip row.url, source_index := idx }] } := by
        rcases hcond with hu | hun
        · simp [processRowStep, hp, ht, hc, hg, hu, hcl, hgi, hdi]
        · by_cases hu : pyStrip row.url = ""
          · simp [processRowStep, hp, ht, hc, hg, hu, hcl, hgi, hdi]
          · simp [processRowStep, hp, ht, hc, hg, hu, hun, hcl, hgi, hdi]
      rw [he]
      exact urlInv_append s st3 (s.processed ++ [idx]) _ (pyStrip row.url) rfl hcond h
    · have he : processRowStep oracle s idx row =
          { s with results := s.results ++ [nonGameRecord (pyStrip row.company) (pyStrip row.title) (pyStrip row.url) idx],
                   processed := s.processed ++ [idx],
                   seenUrls := (if pyStrip row.url ≠ "" then s.seenUrls ++ [pyStrip row.url] else s.seenUrls) } := by
        rcases hcond with hu | hun
        · simp [processRowStep, hp, ht, hc, hg, hu]
        · by_cases hu : pyStrip row.url = ""
          · simp [processRowStep, hp, ht, hc, hg, hu]
          · simp [processRowStep, hp, ht, hc, hg, hu, hun]
      rw [he]
      exact urlInv_append s s.engine (s.processed ++ [idx]) _ (pyStrip row.url) rfl hcond h

/-- The whole batch fold preserves the URL-uniqueness invariant. -/
theorem urlInv_fold (oracle : Prompt → Option String) (l : List (Nat × Row))
    (s0 : LoopState) (h : UrlInv s0) :
    UrlInv (l.foldl (fun s p => processRowStep oracle s p.1 p.2) s0) := by
  induction l generalizing s0 with
  | nil => exact h
  | cons p t ih => exact ih _ (urlInv_step oracle s0 p.1 p.2 h)

/-- C9: over any input table, a fresh batch run never emits two records
with the same non-empty URL, and a row whose non-empty URL was already
seen is skipped — only marked processed — leaving the results, the seen
set, and the engine caches unchanged. -/
theorem claim9_thm :
    (∀ (oracle : Prompt → Option String) (engine0 : EngineState) (rows : List Row),
       (process_dataframe oracle engine0 rows).results.Pairwise
         (fun a b => a.url ≠ "" → a.url ≠ b.url)) ∧
    (∀ (oracle : Prompt → Option String) (s : LoopState) (idx : Nat) (row : Row),
       s.processed.contains idx = false →
       pyStrip row.title ≠ "" →
       pyStrip row.company ≠ "" →
       pyStrip row.url ≠ "" →
       pyStrip row.url ∈ s.seenUrls →
       processRowStep oracle s idx row = { s with processed := s.processed ++ [idx] }) := by
  constructor
  · intro oracle engine0 rows
    have h0 : UrlInv (initialLoopState engine0) :=
      ⟨fun r hr => absurd hr (List.not_mem_nil r), List.Pairwise.nil⟩
    exact (urlInv_fold oracle rows.enum (initialLoopState engine0) h0).2
  · intro oracle s idx row h0 h1 h2 h3 h4
    have h0m : idx ∉ s.processed := by simpa using h0
    simp [processRowStep, h0m, h1, h2, h3, h4]

/-- C9 witness: mid-run, with `http://x` already seen from row 0, the
duplicate row 1 is skipped and only marked processed. -/
theorem claim9_witness :
    processRowStep (fun _ => none) midRunState 1
        (Row.mk "Epic Games" "Senior Animator" "http://x")
      = { midRunState with processed := midRunState.processed ++ [1] } :=
  claim9_thm.2 (fun _ => none) midRunState 1
    (Row.mk "Epic Games" "Senior Animator" "http://x")
    (by decide) (by decide) (by decide) (by decide) (by decide)

end Engine
